import Mathlib

/-!
Shallow embedding of the food-recognition pipeline of
`src/services/foodRecognition.js` (class `FoodRecognitionService`), together
with theorems checking the natural-language specification against it.

Numbers are modelled as rationals (`ℚ`); the JavaScript `Math.round` is
round-half-up (`⌊x + 1/2⌋`).  External effects (network calls, file reads)
are modelled as environments that record the outcome of each call.
-/

-- Batteries marks the `Rat` field operations `@[irreducible]`; re-open them so
-- that concrete runs of the embedded code reduce under `decide`.
unseal Rat.add Rat.mul Rat.sub Rat.inv Rat.ofScientific

/-- JavaScript `Math.round`: round half up, as a rational-valued function. -/
def jsRound (q : ℚ) : ℚ := (⌊q + 1/2⌋ : ℤ)

/-- JavaScript `Math.round(x * 10) / 10`: round to one decimal place, half up. -/
def round1 (q : ℚ) : ℚ := jsRound (q * 10) / 10

/-- Char-list front-match test (structural, `==` on characters). -/
def charsFront : List Char → List Char → Bool
  | [], _ => true
  | _ :: _, [] => false
  | c :: cs, d :: ds => c == d && charsFront cs ds

/-- Char-list occurrence test: does `needle` occur contiguously in `hay`? -/
def charsOccur (needle : List Char) : List Char → Bool
  | [] => needle.isEmpty
  | hay@(_ :: rest) => charsFront needle hay || charsOccur needle rest

/-- JavaScript `s.includes(sub)`: substring containment. -/
def jsIncludes (s sub : String) : Bool := charsOccur sub.data s.data

/-- JavaScript `parseInt` restricted to the strings this service builds:
leading whitespace, optional sign, then a digit run; `none` models `NaN`. -/
def jsParseInt (s : String) : Option ℤ :=
  let cs := s.data.dropWhile (fun c => c == ' ' || c == '\t' || c == '\n' || c == '\r')
  let (neg, cs) :=
    match cs with
    | '-' :: rest => (true, rest)
    | '+' :: rest => (false, rest)
    | _ => (false, cs)
  let digits := cs.takeWhile Char.isDigit
  if digits.isEmpty then none
  else
    let n : ℤ := digits.foldl (fun acc c => 10 * acc + (c.toNat - 48 : ℤ)) 0
    some (if neg then -n else n)

/-- Render `parseInt(weightString) * count` followed by `"g"`; a weight string
with no leading integer gives `NaN`, which JavaScript prints as `"NaN"`. -/
def weightTimes (weight : String) (count : ℤ) : String :=
  match jsParseInt weight with
  | some n => toString (n * count) ++ "g"
  | none => "NaNg"

/-- Render the non-negative one-decimal rationals the pipeline produces the way
JavaScript prints the corresponding numbers (`12` rather than `12.0`). -/
def qRender (q : ℚ) : String :=
  if q.den = 1 then toString q.num
  else toString ⌊q⌋ ++ "." ++ toString (⌊q * 10⌋ % 10)

/-- JavaScript `s.toLowerCase()` over the character list (the core `String.toLower`
recurses on byte positions, which does not reduce definitionally). -/
def strToLower (s : String) : String := String.mk (s.data.map Char.toLower)

/-- JavaScript `q || d` on an optional number: a missing value and 0 are both
falsy and fall back to the default. -/
def jsNumOr (q : Option ℚ) (d : ℚ) : ℚ :=
  match q with
  | none => d
  | some c => if c = 0 then d else c

/-- JavaScript `word.charAt(0).toUpperCase() + word.slice(1)`. -/
def capitalizeWord (s : String) : String :=
  match s.data with
  | [] => ""
  | c :: cs => String.mk (c.toUpper :: cs)

/-- The fixed set of numeric nutrition fields (§3 NutritionVector). -/
structure NutritionVector where
  calories : ℚ
  protein : ℚ
  carbs : ℚ
  fat : ℚ
  fiber : ℚ
  sugar : ℚ
  sodium : ℚ
  iron : ℚ
  calcium : ℚ
  vitaminC : ℚ
deriving DecidableEq, Repr

def zeroVec : NutritionVector := ⟨0, 0, 0, 0, 0, 0, 0, 0, 0, 0⟩

def addVec (u v : NutritionVector) : NutritionVector :=
  ⟨u.calories + v.calories, u.protein + v.protein, u.carbs + v.carbs,
   u.fat + v.fat, u.fiber + v.fiber, u.sugar + v.sugar, u.sodium + v.sodium,
   u.iron + v.iron, u.calcium + v.calcium, u.vitaminC + v.vitaminC⟩

/-- The field-specific rounding rule of `multiplyNutrition`/`calculateGrandTotal`:
calories, sodium and calcium are rounded to integers, the rest to one decimal. -/
def roundVec (v : NutritionVector) : NutritionVector :=
  { calories := jsRound v.calories
    protein := round1 v.protein
    carbs := round1 v.carbs
    fat := round1 v.fat
    fiber := round1 v.fiber
    sugar := round1 v.sugar
    sodium := jsRound v.sodium
    iron := round1 v.iron
    calcium := jsRound v.calcium
    vitaminC := round1 v.vitaminC }

/-- A nutrition slot of an item.  The source stores either a nutrition object
or the placeholder string `'AI_GENERATE'` (`getPerUnitNutrition` stub); field
access on the placeholder yields `undefined`, coerced to 0 by `|| 0`. -/
inductive NutVal where
  | vec (v : NutritionVector)
  | aiGenerate
deriving DecidableEq, Repr

/-- Reading a nutrition slot the way `item.totalNutrition[key] || 0` and
`item.totalNutrition?.protein || 0` do: the placeholder contributes zeros. -/
def NutVal.orZero : NutVal → NutritionVector
  | .vec v => v
  | .aiGenerate => zeroVec

/-- The value part of one local-database record (`initializePerUnitDatabase`). -/
structure FoodData where
  displayName : String
  weight : String
  nutrition : NutritionVector
  category : String
  healthScore : ℚ
  ingredients : List String
  tips : String
deriving DecidableEq, Repr

/-- One `[key, data]` entry of the local database object. -/
structure CatalogEntry where
  key : String
  data : FoodData
deriving DecidableEq, Repr

/-- The local database of `initializePerUnitDatabase`, as the ordered list of
`[key, data]` pairs that `Object.entries` yields (insertion order). -/
def perUnitDB : List CatalogEntry := [
  ⟨"paratha", ⟨"Plain Paratha", "70g",
    ⟨180, 4.0, 28, 6.5, 3.0, 2, 180, 1.8, 25, 0⟩, "Indian Bread", 7,
    ["wheat flour", "oil", "salt"], "Good source of carbohydrates and energy"⟩⟩,
  ⟨"mix_veg", ⟨"Mix Veg", "150g",
    ⟨140, 5.2, 18, 6.8, 5.5, 8, 320, 2.4, 85, 25⟩, "North Indian", 8,
    ["mixed vegetables", "onion", "tomato", "spices", "oil"],
    "Rich in vitamins and minerals from fresh vegetables"⟩⟩,
  ⟨"aloo_jeera", ⟨"Aloo Jeera", "120g",
    ⟨165, 3.8, 24, 7.2, 3.2, 3, 280, 1.8, 28, 12⟩, "North Indian", 7,
    ["potato", "cumin", "turmeric", "oil", "coriander"],
    "Simple and flavorful potato preparation"⟩⟩,
  ⟨"aloo_gobhi", ⟨"Aloo Gobhi", "130g",
    ⟨155, 4.5, 22, 6.8, 4.2, 6, 300, 2.1, 35, 45⟩, "North Indian", 8,
    ["potato", "cauliflower", "turmeric", "ginger", "spices"],
    "Good source of vitamin C and fiber"⟩⟩,
  ⟨"gobhi_masala", ⟨"Gobhi Masala", "125g",
    ⟨148, 4.2, 20, 7.0, 4.8, 7, 310, 2.0, 42, 50⟩, "North Indian", 8,
    ["cauliflower", "onion", "tomato", "garam masala", "oil"],
    "High in vitamin C and antioxidants"⟩⟩,
  ⟨"aloo_mutter", ⟨"Aloo Mutter", "135g",
    ⟨162, 5.8, 23, 6.5, 5.2, 8, 290, 2.5, 35, 18⟩, "North Indian", 8,
    ["potato", "green peas", "tomato", "cumin", "coriander"],
    "Good protein from peas and complex carbs"⟩⟩,
  ⟨"banarasi_dum_aloo", ⟨"Banarasi Dum Aloo", "140g",
    ⟨195, 4.2, 26, 9.5, 3.8, 5, 380, 2.2, 32, 15⟩, "North Indian", 7,
    ["baby potato", "yogurt", "cashew", "garam masala", "ghee"],
    "Rich and creamy traditional recipe"⟩⟩,
  ⟨"kashmiri_dum_aloo", ⟨"Kashmiri Dum Aloo", "140g",
    ⟨210, 4.5, 28, 10.2, 4.0, 6, 350, 2.4, 38, 12⟩, "North Indian", 7,
    ["baby potato", "yogurt", "fennel", "saffron", "ghee"],
    "Aromatic Kashmiri specialty with unique spices"⟩⟩,
  ⟨"aloo_bhurji", ⟨"Aloo Bhurji", "110g",
    ⟨145, 3.5, 20, 6.8, 2.8, 4, 260, 1.6, 22, 18⟩, "North Indian", 7,
    ["potato", "onion", "green chili", "turmeric", "coriander"],
    "Light and spiced mashed potato dish"⟩⟩,
  ⟨"baingan_bharta", ⟨"Baingan Bharta", "130g",
    ⟨125, 3.8, 15, 6.5, 6.2, 9, 280, 1.8, 28, 8⟩, "North Indian", 8,
    ["eggplant", "onion", "tomato", "garlic", "mustard oil"],
    "High fiber and low calorie vegetable dish"⟩⟩,
  ⟨"bhindi_masala", ⟨"Bhindi Masala", "120g",
    ⟨135, 4.2, 16, 7.0, 5.8, 4, 240, 2.0, 65, 22⟩, "North Indian", 8,
    ["okra", "onion", "turmeric", "coriander", "oil"],
    "Rich in fiber and vitamin C"⟩⟩,
  ⟨"keema_gobhi_mutter", ⟨"Keema Gobhi Mutter", "145g",
    ⟨185, 8.5, 18, 9.2, 4.5, 8, 380, 3.2, 45, 35⟩, "North Indian", 7,
    ["soy keema", "cauliflower", "peas", "garam masala", "oil"],
    "High protein vegetarian keema alternative"⟩⟩,
  ⟨"palak_chana", ⟨"Palak Chana", "140g",
    ⟨168, 8.8, 22, 5.5, 8.2, 5, 320, 4.5, 125, 28⟩, "North Indian", 9,
    ["spinach", "chickpeas", "onion", "garlic", "cumin"],
    "Excellent source of iron and protein"⟩⟩,
  ⟨"palak_corn", ⟨"Palak Corn", "130g",
    ⟨142, 6.2, 20, 5.8, 5.5, 8, 280, 3.8, 105, 32⟩, "North Indian", 8,
    ["spinach", "sweet corn", "onion", "garlic", "spices"],
    "Rich in iron from spinach and fiber from corn"⟩⟩,
  ⟨"palak_kofta", ⟨"Palak Kofta", "160g",
    ⟨195, 7.5, 18, 12.0, 4.8, 6, 350, 4.2, 145, 25⟩, "North Indian", 7,
    ["spinach kofta", "spinach gravy", "paneer", "cream", "spices"],
    "Protein-rich with iron from spinach"⟩⟩,
  ⟨"tomato_chutney", ⟨"Tomato Chutney", "50g",
    ⟨45, 1.8, 8, 1.2, 2.2, 6, 180, 0.8, 15, 18⟩, "Condiment", 7,
    ["tomato", "tamarind", "jaggery", "mustard seeds", "chili"],
    "Rich in vitamin C and antioxidants"⟩⟩,
  ⟨"black_chana_masala", ⟨"Black Chana Masala", "150g",
    ⟨185, 10.5, 26, 6.2, 9.5, 4, 380, 4.8, 65, 8⟩, "North Indian", 9,
    ["black chickpeas", "onion", "tomato", "garam masala", "oil"],
    "Excellent source of plant protein and fiber"⟩⟩,
  ⟨"white_chana_masala", ⟨"White Chana Masala", "150g",
    ⟨175, 9.8, 25, 5.8, 8.8, 5, 360, 4.2, 58, 10⟩, "North Indian", 9,
    ["white chickpeas", "onion", "tomato", "cumin", "coriander"],
    "High protein and fiber legume preparation"⟩⟩,
  ⟨"veg_kofta", ⟨"Veg Kofta", "180g",
    ⟨225, 8.2, 22, 13.5, 4.5, 8, 420, 2.8, 85, 15⟩, "North Indian", 6,
    ["mixed vegetable kofta", "tomato gravy", "cashew", "cream"],
    "Rich and creamy - enjoy in moderation"⟩⟩,
  ⟨"malai_kofta", ⟨"Malai Kofta", "180g",
    ⟨245, 9.5, 20, 16.2, 3.8, 9, 380, 2.5, 125, 12⟩, "North Indian", 6,
    ["paneer kofta", "cream gravy", "cashew", "butter", "spices"],
    "High in protein but also high in calories"⟩⟩,
  ⟨"kadhi_pakora", ⟨"Kadhi Pakora", "200g",
    ⟨185, 6.8, 20, 9.5, 3.2, 8, 420, 2.2, 95, 5⟩, "North Indian", 7,
    ["yogurt curry", "besan pakora", "turmeric", "ginger", "cumin"],
    "Probiotic benefits from yogurt"⟩⟩,
  ⟨"dal_makhani", ⟨"Dal Makhani", "150g",
    ⟨210, 12.5, 24, 8.8, 9.2, 4, 380, 4.8, 85, 3⟩, "Dal", 8,
    ["black dal", "kidney beans", "butter", "cream", "tomato"],
    "Rich source of plant protein and iron"⟩⟩,
  ⟨"yellow_dal", ⟨"Yellow Dal", "150g",
    ⟨155, 11.2, 22, 4.5, 8.5, 3, 280, 4.2, 45, 2⟩, "Dal", 9,
    ["yellow lentils", "turmeric", "cumin", "garlic", "coriander"],
    "Complete protein source with high fiber"⟩⟩,
  ⟨"punjabi_dal_tadka", ⟨"Punjabi Dal Tadka", "150g",
    ⟨168, 11.8, 23, 5.2, 8.8, 3, 320, 4.5, 52, 5⟩, "Dal", 9,
    ["mixed lentils", "onion", "tomato", "ghee", "whole spices"],
    "Traditional Punjabi style with rich flavor"⟩⟩,
  ⟨"rajma_tadka", ⟨"Rajma Tadka", "150g",
    ⟨195, 12.8, 26, 6.2, 10.5, 4, 380, 4.8, 65, 8⟩, "Dal", 9,
    ["kidney beans", "onion", "tomato", "garam masala", "oil"],
    "Excellent source of protein and fiber"⟩⟩,
  ⟨"white_chana_gravy", ⟨"White Chana Gravy", "150g",
    ⟨182, 10.2, 25, 6.0, 9.2, 5, 350, 4.5, 62, 12⟩, "Dal", 9,
    ["white chickpeas", "onion gravy", "tomato", "cumin", "bay leaves"],
    "High protein legume with complex carbs"⟩⟩,
  ⟨"black_chana_gravy", ⟨"Black Chana Gravy", "150g",
    ⟨188, 10.8, 26, 6.2, 9.8, 4, 370, 5.2, 68, 10⟩, "Dal", 9,
    ["black chickpeas", "onion", "tomato", "garam masala", "oil"],
    "Higher iron content than white chickpeas"⟩⟩,
  ⟨"tandoori_roti", ⟨"Tandoori Roti", "60g",
    ⟨140, 4.8, 26, 2.2, 3.5, 1, 200, 2.0, 25, 0⟩, "Tandoor Bread", 8,
    ["wheat flour", "water", "salt"], "Healthy whole wheat bread option"⟩⟩,
  ⟨"tandoori_butter_roti", ⟨"Tandoori Butter Roti", "65g",
    ⟨165, 5.0, 26, 5.8, 3.5, 1, 220, 2.0, 28, 0⟩, "Tandoor Bread", 7,
    ["wheat flour", "butter", "water", "salt"],
    "Buttery flavor with extra calories"⟩⟩,
  ⟨"butter_naan", ⟨"Butter Naan", "80g",
    ⟨220, 6.2, 35, 7.5, 2.0, 3, 380, 2.2, 45, 0⟩, "Tandoor Bread", 6,
    ["refined flour", "yogurt", "butter", "yeast", "sugar"],
    "Soft and buttery but higher in calories"⟩⟩,
  ⟨"plain_naan", ⟨"Plain Naan", "75g",
    ⟨195, 5.8, 35, 4.2, 1.8, 3, 350, 2.0, 40, 0⟩, "Tandoor Bread", 6,
    ["refined flour", "yogurt", "yeast", "oil", "salt"],
    "Classic Indian bread - pairs well with curry"⟩⟩,
  ⟨"lachha_parantha", ⟨"Lachha Parantha", "85g",
    ⟨240, 6.0, 32, 10.5, 3.2, 2, 280, 2.2, 35, 0⟩, "Tandoor Bread", 6,
    ["wheat flour", "ghee", "oil", "salt"],
    "Layered bread with higher fat content"⟩⟩,
  ⟨"mirchi_lachha_parantha", ⟨"Mirchi Lachha Parantha", "90g",
    ⟨255, 6.5, 33, 11.2, 3.8, 2, 320, 2.4, 38, 15⟩, "Tandoor Bread", 6,
    ["wheat flour", "green chili", "ghee", "coriander", "salt"],
    "Spicy layered bread with vitamin C from chilies"⟩⟩,
  ⟨"garlic_naan", ⟨"Garlic Naan", "80g",
    ⟨205, 6.0, 34, 5.5, 2.2, 3, 370, 2.2, 42, 2⟩, "Tandoor Bread", 7,
    ["refined flour", "garlic", "butter", "yogurt", "herbs"],
    "Garlic provides antioxidants and flavor"⟩⟩,
  ⟨"stuffed_kulcha", ⟨"Stuffed Kulcha", "100g",
    ⟨280, 8.5, 38, 11.0, 4.0, 3, 420, 2.8, 55, 8⟩, "Tandoor Bread", 6,
    ["refined flour", "potato stuffing", "yogurt", "ghee", "spices"],
    "Filling bread with vegetable stuffing"⟩⟩,
  ⟨"tawa_roti", ⟨"Tawa Roti", "50g",
    ⟨120, 3.5, 22, 1.2, 2.8, 1, 150, 1.5, 18, 0⟩, "Tawa Bread", 8,
    ["wheat flour", "water", "salt"], "Simple and healthy whole wheat bread"⟩⟩,
  ⟨"tawa_butter_roti", ⟨"Tawa Butter Roti", "55g",
    ⟨145, 3.8, 22, 4.8, 2.8, 1, 170, 1.5, 22, 0⟩, "Tawa Bread", 7,
    ["wheat flour", "butter", "water", "salt"],
    "Buttery version with extra flavor"⟩⟩,
  ⟨"plain_parantha", ⟨"Plain Parantha", "70g",
    ⟨180, 4.0, 28, 6.5, 3.0, 2, 180, 1.8, 25, 0⟩, "Tawa Bread", 7,
    ["wheat flour", "oil", "salt"], "Classic Indian flatbread"⟩⟩,
  ⟨"shahi_paneer", ⟨"Shahi Paneer", "180g",
    ⟨285, 16.5, 15, 20.5, 2.8, 8, 420, 2.2, 285, 12⟩, "Paneer Special", 6,
    ["paneer", "cashew gravy", "cream", "tomato", "spices"],
    "High protein but also high in calories"⟩⟩,
  ⟨"kadai_paneer", ⟨"Kadai Paneer", "170g",
    ⟨265, 15.8, 12, 18.2, 3.2, 6, 380, 2.0, 275, 35⟩, "Paneer Special", 7,
    ["paneer", "bell peppers", "onion", "tomato", "kadai masala"],
    "Good protein with vegetables"⟩⟩,
  ⟨"achari_paneer", ⟨"Achari Paneer", "175g",
    ⟨275, 16.2, 14, 19.0, 2.5, 7, 450, 2.2, 280, 15⟩, "Paneer Special", 6,
    ["paneer", "pickle spices", "yogurt", "onion", "oil"],
    "Tangy flavor with high sodium content"⟩⟩,
  ⟨"mutter_paneer", ⟨"Mutter Paneer", "170g",
    ⟨245, 15.5, 16, 15.8, 4.5, 8, 360, 2.8, 270, 25⟩, "Paneer Special", 7,
    ["paneer", "green peas", "tomato gravy", "garam masala"],
    "Added fiber and vitamins from peas"⟩⟩,
  ⟨"cheese_tomato", ⟨"Cheese Tomato", "160g",
    ⟨220, 12.5, 12, 14.8, 2.8, 9, 380, 1.5, 245, 28⟩, "Paneer Special", 7,
    ["cheese", "fresh tomato", "onion", "herbs", "cream"],
    "Rich in vitamin C from tomatoes"⟩⟩,
  ⟨"paneer_do_piaza", ⟨"Paneer Do Piaza", "175g",
    ⟨255, 15.2, 18, 16.5, 3.5, 10, 370, 2.0, 275, 18⟩, "Paneer Special", 7,
    ["paneer", "onion", "bell peppers", "tomato", "garam masala"],
    "Double onion preparation with good protein"⟩⟩,
  ⟨"palak_paneer", ⟨"Palak Paneer", "170g",
    ⟨235, 16.0, 12, 16.2, 4.2, 5, 340, 4.8, 320, 22⟩, "Paneer Special", 8,
    ["paneer", "spinach", "garlic", "ginger", "cream"],
    "Excellent source of iron and calcium"⟩⟩,
  ⟨"paneer_butter_masala", ⟨"Paneer Butter Masala", "180g",
    ⟨295, 16.8, 16, 21.5, 3.0, 10, 420, 2.2, 290, 15⟩, "Paneer Special", 6,
    ["paneer", "butter", "tomato gravy", "cream", "cashew"],
    "Rich and creamy - high in calories"⟩⟩,
  ⟨"paneer_tikka_butter_masala", ⟨"Paneer Tikka Butter Masala", "185g",
    ⟨315, 17.5, 18, 23.0, 3.2, 12, 450, 2.5, 295, 18⟩, "Paneer Special", 6,
    ["grilled paneer", "butter masala", "cream", "tomato", "spices"],
    "Grilled paneer in rich gravy"⟩⟩,
  ⟨"plain_rice", ⟨"Plain Rice", "150g",
    ⟨165, 3.8, 36, 0.5, 0.8, 0, 5, 1.2, 15, 0⟩, "Rice", 6,
    ["basmati rice", "water", "salt"], "Simple carbohydrate source"⟩⟩,
  ⟨"jeera_rice", ⟨"Jeera Rice", "150g",
    ⟨185, 4.0, 36, 3.2, 1.0, 0, 180, 1.5, 18, 0⟩, "Rice", 7,
    ["basmati rice", "cumin", "ghee", "bay leaves"],
    "Aromatic rice with digestive cumin"⟩⟩,
  ⟨"veg_pulao", ⟨"Veg Pulao", "180g",
    ⟨245, 6.5, 42, 6.8, 3.2, 4, 320, 2.2, 35, 15⟩, "Rice", 7,
    ["basmati rice", "mixed vegetables", "whole spices", "ghee"],
    "Nutritious one-pot meal with vegetables"⟩⟩,
  ⟨"gobhi_rice", ⟨"Gobhi Rice", "170g",
    ⟨225, 5.8, 40, 5.5, 3.8, 5, 280, 2.0, 32, 25⟩, "Rice", 7,
    ["basmati rice", "cauliflower", "turmeric", "cumin", "oil"],
    "Cauliflower adds vitamins and fiber"⟩⟩,
  ⟨"veg_biryani", ⟨"Veg Biryani", "250g",
    ⟨385, 9.5, 58, 14.2, 4.5, 6, 520, 3.2, 65, 18⟩, "Rice", 7,
    ["basmati rice", "mixed vegetables", "yogurt", "saffron", "ghee"],
    "Festive rice dish with aromatic spices"⟩⟩,
  ⟨"hyderabadi_biryani", ⟨"Hyderabadi Biryani", "260g",
    ⟨420, 11.2, 62, 16.5, 5.0, 7, 580, 3.5, 75, 20⟩, "Rice", 7,
    ["basmati rice", "vegetables", "yogurt", "saffron", "fried onions"],
    "Traditional Hyderabadi style preparation"⟩⟩,
  ⟨"paneer_biryani", ⟨"Paneer Biryani", "270g",
    ⟨445, 16.8, 58, 18.2, 4.8, 8, 620, 3.2, 285, 15⟩, "Rice", 7,
    ["basmati rice", "paneer", "yogurt", "saffron", "whole spices"],
    "High protein biryani with paneer"⟩⟩,
  ⟨"veg_fried_rice", ⟨"Veg Fried Rice", "200g",
    ⟨285, 7.2, 48, 8.5, 3.5, 5, 480, 2.5, 45, 22⟩, "Rice", 6,
    ["rice", "mixed vegetables", "soy sauce", "garlic", "oil"],
    "Indo-Chinese style fried rice"⟩⟩,
  ⟨"chilly_garlic_rice", ⟨"Chilly Garlic Rice", "190g",
    ⟨265, 6.0, 45, 7.8, 2.8, 4, 520, 2.2, 35, 18⟩, "Rice", 6,
    ["rice", "green chili", "garlic", "soy sauce", "oil"],
    "Spicy and flavorful Chinese-style rice"⟩⟩,
  ⟨"normal_thali", ⟨"Normal Thali", "400g",
    ⟨520, 18.5, 72, 18.2, 12.5, 15, 680, 6.8, 185, 35⟩, "Complete Meal", 8,
    ["tawa butter chapati", "rice", "dal", "raita", "salad", "pickle"],
    "Well-balanced complete meal"⟩⟩,
  ⟨"nk_special_thali", ⟨"NK Special Thali", "450g",
    ⟨625, 22.8, 78, 24.5, 14.2, 18, 820, 8.2, 245, 42⟩, "Complete Meal", 8,
    ["tandoori butter roti", "flavoured rice", "sabji", "dal", "raita",
     "salad", "paneer sabji", "dessert"], "Premium thali with paneer dish"⟩⟩,
  ⟨"gulab_jamun", ⟨"Gulab Jamun", "60g",
    ⟨185, 3.2, 28, 7.5, 0.5, 25, 25, 0.8, 65, 0⟩, "Dessert", 3,
    ["milk powder", "sugar syrup", "ghee", "cardamom"],
    "High sugar dessert - enjoy occasionally"⟩⟩,
  ⟨"moong_dal_halwa", ⟨"Moong Dal Halwa", "80g",
    ⟨220, 6.8, 32, 8.5, 2.8, 28, 15, 2.2, 45, 0⟩, "Dessert", 4,
    ["moong dal", "sugar", "ghee", "milk", "cardamom"],
    "Traditional sweet with protein from lentils"⟩⟩,
  ⟨"stick_kulfi", ⟨"Stick Kulfi", "70g",
    ⟨145, 4.2, 18, 6.8, 0, 16, 35, 0.5, 125, 1⟩, "Dessert", 4,
    ["milk", "sugar", "cardamom", "pistachios"],
    "Traditional Indian ice cream"⟩⟩,
  ⟨"ice_cream", ⟨"Ice Cream", "75g",
    ⟨135, 3.8, 16, 6.2, 0, 14, 45, 0.3, 95, 1⟩, "Dessert", 4,
    ["milk", "cream", "sugar", "flavoring"],
    "Cool treat with calcium from dairy"⟩⟩]

/-- Model of `estimateWeight`: keyword-driven per-unit weight estimate for unknown foods. -/
def estimateWeight (foodName : String) : String :=
  let name := strToLower foodName
  if jsIncludes name "pizza" then "150g"
  else if jsIncludes name "burger" then "180g"
  else if jsIncludes name "sandwich" then "120g"
  else if jsIncludes name "pasta" then "200g"
  else if jsIncludes name "noodles" then "150g"
  else if jsIncludes name "dosa" then "100g"
  else if jsIncludes name "idli" then "40g"
  else if jsIncludes name "vada" then "50g"
  else if jsIncludes name "cake" then "80g"
  else if jsIncludes name "cookie" then "15g"
  else "100g"

/-- Model of `categorizeFoodType`: keyword classification used by the smart fallback. -/
def categorizeFoodType (foodName : String) : String :=
  let name := strToLower foodName
  if jsIncludes name "pizza" then "pizza"
  else if jsIncludes name "burger" then "burger"
  else if jsIncludes name "pasta" then "pasta"
  else if jsIncludes name "noodles" then "noodles"
  else if jsIncludes name "sandwich" then "sandwich"
  else if jsIncludes name "cake" || jsIncludes name "pastry" then "cake"
  else "default"

/-- The `categoryNutrition` table of `generateSmartFallback`; an unknown key
falls back to the `'default'` row exactly as `|| categoryNutrition['default']`. -/
def categoryNutritionFor : String → NutritionVector
  | "pizza" => ⟨266, 11, 33, 10, 2, 4, 598, 2.5, 144, 2⟩
  | "burger" => ⟨295, 17, 28, 14, 2, 4, 396, 2.5, 135, 2⟩
  | "pasta" => ⟨220, 8, 43, 1, 3, 3, 142, 1.8, 18, 0⟩
  | "noodles" => ⟨138, 5, 25, 2, 1, 1, 182, 1.8, 18, 0⟩
  | "sandwich" => ⟨250, 12, 30, 8, 3, 4, 450, 2.2, 80, 5⟩
  | "cake" => ⟨320, 4, 58, 12, 1, 45, 285, 1.2, 80, 0⟩
  | _ => ⟨200, 8, 28, 7, 3, 5, 300, 1.8, 60, 5⟩

/-- Model of `generateSmartFallback`: category-based nutrition estimate for unknown foods. -/
def generateSmartFallback (foodName : String) : FoodData :=
  { displayName := foodName
    weight := estimateWeight foodName
    nutrition := categoryNutritionFor (categorizeFoodType foodName)
    category := "Food Item"
    healthScore := 6
    ingredients := ["mixed ingredients"]
    tips := "Nutrition estimated based on similar foods" }

/-- Result of `getPerUnitNutrition`: either a database record, or the
"needs AI generation" stub `{displayName, weight, nutrition: 'AI_GENERATE'}`. -/
inductive LookupResult where
  | found (d : FoodData)
  | stub (displayName weight : String)
deriving DecidableEq, Repr

def LookupResult.displayName : LookupResult → String
  | .found d => d.displayName
  | .stub n _ => n

def LookupResult.weight : LookupResult → String
  | .found d => d.weight
  | .stub _ w => w

def LookupResult.nutritionVal : LookupResult → NutVal
  | .found d => .vec d.nutrition
  | .stub _ _ => .aiGenerate

/-- The match condition of `getPerUnitNutrition`'s loop:
`searchTerm.includes(key) || searchTerm.includes(data.displayName.toLowerCase())`. -/
def codeMatches (searchTerm : String) (e : CatalogEntry) : Bool :=
  jsIncludes searchTerm e.key || jsIncludes searchTerm (strToLower e.data.displayName)

/-- Model of `getPerUnitNutrition`: scan the database in insertion order and return the
first entry whose key or lowercased display name occurs inside the lowercased
food name; otherwise the AI-generation stub. -/
def getPerUnitNutrition (foodName : String) : LookupResult :=
  let searchTerm := strToLower foodName
  match perUnitDB.find? (codeMatches searchTerm) with
  | some e => .found e.data
  | none => .stub foodName (estimateWeight foodName)

/-- Model of `multiplyNutrition`: per-unit values times the count, rounded per field
(calories/sodium/calcium to integers, the rest to one decimal). -/
def multiplyNutrition (v : NutritionVector) (count : ℤ) : NutritionVector :=
  { calories := jsRound (v.calories * count)
    protein := round1 (v.protein * count)
    carbs := round1 (v.carbs * count)
    fat := round1 (v.fat * count)
    fiber := round1 (v.fiber * count)
    sugar := round1 (v.sugar * count)
    sodium := jsRound (v.sodium * count)
    iron := round1 (v.iron * count)
    calcium := jsRound (v.calcium * count)
    vitaminC := round1 (v.vitaminC * count) }

/-- Derived "portion" descriptor of a resolved item. -/
structure Portion where
  size : String
  quantity : String
  weight : String
deriving DecidableEq, Repr

/-- A processed item of a report.  Fields the source sometimes leaves
`undefined` (fallback-report items) are `Option`/defaulted: every consumer
reads them through falsy-coercions (`|| ...`, `?.`). -/
structure ResolvedItem where
  name : String
  visibleCount : ℤ
  perUnitWeight : String
  totalWeight : String
  perUnitNutrition : NutVal
  totalNutrition : NutVal
  userProvided : Bool
  category : Option String
  healthScore : Option ℚ
  ingredients : List String
  tips : Option String
  generatedByAI : Bool
  portion : Portion
deriving DecidableEq, Repr

/-- Model of `calculateGrandTotal`: field-wise sum of the items' `totalNutrition`
(the placeholder slot contributes 0 through `|| 0`), rounded per field. -/
def calculateGrandTotal (items : List ResolvedItem) : NutritionVector :=
  roundVec (items.foldl (fun acc item => addVec acc item.totalNutrition.orZero) zeroVec)

/-- Model of `createFoodName`: single item name (pluralized past count 1) or a
`Combo:` description of the first three items. -/
def createFoodName (items : List ResolvedItem) : String :=
  match items with
  | [item] =>
    if item.visibleCount > 1 then toString item.visibleCount ++ " " ++ item.name ++ "s"
    else item.name
  | _ =>
    let descriptions := (items.take 3).map fun item =>
      toString item.visibleCount ++ " " ++ item.name ++
        (if item.visibleCount > 1 then "s" else "")
    "Combo: " ++ String.intercalate " + " descriptions ++
      (if items.length > 3 then " + more" else "")

def sumVisibleCounts (items : List ResolvedItem) : ℤ :=
  items.foldl (fun s i => s + i.visibleCount) 0

/-- Model of `createServingDescription`: total piece count and summed `parseInt` weights. -/
def createServingDescription (items : List ResolvedItem) : String :=
  let totalPieces := sumVisibleCounts items
  let totalWeight := items.foldl (fun s i => s + ((jsParseInt i.totalWeight).getD 0)) 0
  toString totalPieces ++ " piece" ++ (if totalPieces > 1 then "s" else "") ++
    " total (" ++ toString totalWeight ++ "g)"

/-- Model of `generateQuantityTips`: applicable advisory sentences joined with `". "`. -/
def generateQuantityTips (items : List ResolvedItem) (nutrition : NutritionVector) : String :=
  let totalPieces := sumVisibleCounts items
  let hasAIGenerated := items.any (·.generatedByAI)
  let tips : List String :=
    (if totalPieces ≥ 6 then ["Large meal - consider sharing or saving some for later"]
     else if totalPieces ≥ 3 then ["Good portion size for a satisfying meal"] else []) ++
    (if nutrition.protein > 20 then
      ["High protein content (" ++ qRender nutrition.protein ++
       "g) - great for muscle building"] else []) ++
    (if nutrition.calories > 600 then
      ["High-calorie meal - balance with lighter foods during the day"] else []) ++
    (if hasAIGenerated then ["Nutrition data enhanced with AI analysis"] else [])
  if tips.length > 0 then String.intercalate ". " tips ++ "." else "Enjoy your meal!"

/-- Model of `categorizeCombo`: the single item's category (defaulted) or `Combo Meal`. -/
def categorizeCombo (items : List ResolvedItem) : String :=
  match items with
  | [item] => item.category.getD "Food Item"
  | _ => "Combo Meal"

/-- The score built by `calculateAccurateHealthScore` before rounding/clamping:
start at 6, apply the eight threshold bonuses/penalties. -/
def rawHealthScore (n : NutritionVector) : ℚ :=
  6 + (if n.protein > 15 then 1 else 0) + (if n.fiber > 8 then 1 else 0)
    + (if n.iron > 3 then 0.5 else 0) + (if n.vitaminC > 10 then 0.5 else 0)
    - (if n.sodium > 800 then 1 else 0) - (if n.calories > 800 then 0.5 else 0)
    - (if n.fat > 30 then 0.5 else 0) - (if n.sugar > 25 then 0.5 else 0)

/-- Model of `calculateAccurateHealthScore`:
`Math.max(1, Math.min(10, Math.round(score * 2) / 2))`. -/
def calculateAccurateHealthScore (n : NutritionVector) : ℚ :=
  max 1 (min 10 (jsRound (rawHealthScore n * 2) / 2))

def meatEggTerms : List String := ["chicken", "mutton", "meat", "egg"]

def dairyTerms : List String := ["butter", "ghee", "cream", "milk", "cheese"]

def glutenTerms : List String := ["wheat", "flour", "bread"]

/-- Does some item have an ingredient whose lowercase form is one of `terms`?
(`item.ingredients?.some(ing => terms.includes(ing.toLowerCase()))`). -/
def hasIngredientIn (terms : List String) (items : List ResolvedItem) : Bool :=
  items.any fun item => item.ingredients.any fun ing => terms.contains (strToLower ing)

/-- Total protein reduce of `getDietaryInfo`:
`items.reduce((sum, item) => sum + (item.totalNutrition?.protein || 0), 0)`. -/
def totalProteinOf (items : List ResolvedItem) : ℚ :=
  items.foldl (fun sum item => sum + item.totalNutrition.orZero.protein) 0

structure DietaryInfo where
  isVegetarian : Bool
  isVegan : Bool
  isGlutenFree : Bool
  isHighProtein : Bool
  isBalanced : Bool
deriving DecidableEq, Repr

/-- Model of `getDietaryInfo`: dietary flags derived from ingredients and totals. -/
def getDietaryInfo (items : List ResolvedItem) : DietaryInfo :=
  let hasNonVeg := hasIngredientIn meatEggTerms items
  let hasDairy := hasIngredientIn dairyTerms items
  let hasGluten := hasIngredientIn glutenTerms items
  { isVegetarian := !hasNonVeg
    isVegan := !hasNonVeg && !hasDairy
    isGlutenFree := !hasGluten
    isHighProtein := decide (totalProteinOf items > 20)
    isBalanced := decide (items.length ≥ 2) }

/-- Model of `extractIngredients`: `Set`-style union keeping first-insertion order,
truncated to 8. -/
def extractIngredients (items : List ResolvedItem) : List String :=
  (items.foldl (fun acc item =>
    item.ingredients.foldl (fun a ing => if a.contains ing then a else a ++ [ing]) acc)
    []).take 8

/-- A detected item as consumed by `formatQuantityResponse`.  `visibleCount`
is modelled after `parseInt`: `none` stands for a missing/non-numeric count
(`parseInt` gives `NaN`, and `NaN || 1` is 1). -/
structure DetectedItem where
  foodName : String
  visibleCount : Option ℤ
  perUnitWeight : Option String
  userProvided : Bool
deriving DecidableEq, Repr

/-- The JSON object parsed out of the AI-nutrition generation sub-call. -/
structure AiNutrition where
  perUnitNutrition : NutritionVector
  standardWeight : Option String
  category : Option String
  healthScore : Option ℚ
  ingredients : Option (List String)
  tips : Option String
deriving DecidableEq, Repr

/-- Environment recording the outcome of `generateNutritionFromAI`
(arguments: food name, count, weight hint); `none` models exhaustion/failure,
which the source maps to the smart fallback. -/
structure GenEnv where
  generate : String → ℤ → String → Option AiNutrition

/-- The body of the per-item loop of `formatQuantityResponse`. -/
def processDetectedItem (env : GenEnv) (userProvided : Bool) (item : DetectedItem) :
    ResolvedItem :=
  let perUnitData := getPerUnitNutrition item.foodName
  let count : ℤ :=
    match item.visibleCount with
    | none => 1
    | some 0 => 1
    | some n => n
  let finalPerUnitData : FoodData :=
    match perUnitData with
    | .found d => d
    | .stub _ stubWeight =>
      match env.generate item.foodName count (item.perUnitWeight.getD stubWeight) with
      | some ai =>
        { displayName := item.foodName
          weight := ai.standardWeight.getD (item.perUnitWeight.getD stubWeight)
          nutrition := ai.perUnitNutrition
          category := ai.category.getD "Food Item"
          healthScore := ai.healthScore.getD 6
          ingredients := ai.ingredients.getD ["mixed ingredients"]
          tips := ai.tips.getD "Enjoy as part of a balanced diet" }
      | none => generateSmartFallback item.foodName
  let totalNutrition := multiplyNutrition finalPerUnitData.nutrition count
  -- `finalPerUnitData.displayName || item.foodName`: every branch sets a
  -- display name, and an empty one coincides with `item.foodName` anyway.
  { name := finalPerUnitData.displayName
    visibleCount := count
    perUnitWeight := finalPerUnitData.weight
    totalWeight := weightTimes finalPerUnitData.weight count
    perUnitNutrition := .vec finalPerUnitData.nutrition
    totalNutrition := .vec totalNutrition
    userProvided := userProvided
    category := some finalPerUnitData.category
    healthScore := some finalPerUnitData.healthScore
    ingredients := finalPerUnitData.ingredients
    tips := some finalPerUnitData.tips
    generatedByAI := (match perUnitData with | .found _ => false | .stub _ _ => true)
    portion :=
      { size := if count > 3 then "Large" else if count > 1 then "Medium" else "Small"
        quantity := toString count ++ " piece" ++ (if count > 1 then "s" else "")
        weight := weightTimes finalPerUnitData.weight count } }

/-- The parsed provider payload handed to `formatQuantityResponse`;
`detectedItems := none` models a missing/falsy `detectedItems` field
(note an empty array is NOT falsy: it is `some []`). -/
structure QuantityData where
  detectedItems : Option (List DetectedItem)
  confidence : Option ℚ
deriving DecidableEq, Repr

/-- The complete recognition report (timestamp omitted: wall-clock only). -/
structure Report where
  foodName : String
  isComboMeal : Bool
  itemCount : ℕ
  totalFoodPieces : ℤ
  individualItems : List ResolvedItem
  confidence : ℚ
  category : String
  servingSize : String
  nutrition : NutritionVector
  healthScore : ℚ
  dietaryInfo : DietaryInfo
  ingredients : List String
  tips : String
  method : String
  userAssisted : Bool
  hasAIGeneratedNutrition : Bool
  isEstimate : Bool
  usedModel : Option String
  imageUri : Option String
  userInput : Option String
deriving DecidableEq, Repr

/-- Model of `formatQuantityResponse`: throws `'No detected items in response'` only when
the `detectedItems` field itself is falsy, then assembles the report from the
processed items. -/
def formatQuantityResponse (env : GenEnv) (data : QuantityData)
    (userInput : Option String) : Except String Report :=
  match data.detectedItems with
  | none => .error "No detected items in response"
  | some detected =>
    let processedItems := detected.map (processDetectedItem env userInput.isSome)
    let grandTotalNutrition := calculateGrandTotal processedItems
    .ok
      { foodName := createFoodName processedItems
        isComboMeal := processedItems.length > 1
        itemCount := processedItems.length
        totalFoodPieces := sumVisibleCounts processedItems
        individualItems := processedItems
        confidence := jsNumOr data.confidence 0.9
        category := categorizeCombo processedItems
        servingSize := createServingDescription processedItems
        nutrition := grandTotalNutrition
        healthScore := calculateAccurateHealthScore grandTotalNutrition
        dietaryInfo := getDietaryInfo processedItems
        ingredients := extractIngredients processedItems
        tips := generateQuantityTips processedItems grandTotalNutrition
        method := if userInput.isSome then "Gemini 2.5 - User Assisted + AI Nutrition"
                  else "Gemini 2.5 - AI Nutrition Enhanced"
        userAssisted := userInput.isSome
        hasAIGeneratedNutrition := processedItems.any (·.generatedByAI)
        isEstimate := false
        usedModel := none
        imageUri := none
        userInput := none }

/-- JavaScript regex `\s` restricted to the ASCII whitespace characters. -/
def isJsSpace (c : Char) : Bool :=
  c == ' ' || c == '\t' || c == '\n' || c == '\r' || c == '\x0b' || c == '\x0c'

def digitsToNat (ds : List Char) : ℕ :=
  ds.foldl (fun n c => 10 * n + (c.toNat - 48)) 0

/-- Try the pattern `(\d+)\s*(w₁|w₂|...)` (case-insensitive, alternatives in
order) at the head of `cs`; on success return the count, the matched vocabulary
word and the remaining characters. -/
def matchQuantityAt (words : List String) (cs : List Char) :
    Option (ℕ × String × List Char) :=
  let digits := cs.takeWhile Char.isDigit
  if digits.isEmpty then none
  else
    let rest := (cs.dropWhile Char.isDigit).dropWhile isJsSpace
    match words.find? (fun w => charsFront w.data (rest.map Char.toLower)) with
    | some w => some (digitsToNat digits, w, rest.drop w.length)
    | none => none

/-- All non-overlapping matches of `(\d+)\s*(w₁|...)` over the text, left to
right, as `matchAll` yields them (fuel-indexed; fuel = text length suffices). -/
def scanQuantities (words : List String) : ℕ → List Char → List (ℕ × String)
  | 0, _ => []
  | _ + 1, [] => []
  | fuel + 1, c :: cs =>
    match matchQuantityAt words (c :: cs) with
    | some (n, w, rest) => (n, w) :: scanQuantities words fuel rest
    | none => scanQuantities words fuel cs

/-- The four `quantityPatterns` vocabularies of `extractQuantitiesFromText`. -/
def quantityPatternWords : List (List String) :=
  [["pizza", "burger", "sandwich", "pasta", "noodles", "dosa", "idli", "vada"],
   ["paratha", "roti", "chapati"],
   ["bonda", "samosa"],
   ["poori", "puri"]]

/-- The best-guess food-type list scanned when no quantity pattern matched. -/
def bestGuessFoodTypes : List String := ["pizza", "burger", "paratha", "dosa", "noodles"]

/-- The detected-item synthesis of `extractQuantitiesFromText`: one item per
regex match with count in 1..20; if none, a single count-1 item for the first
entry of `bestGuessFoodTypes` contained in the text; else no item at all. -/
def extractDetectedItemsFromText (text : String) (userInput : Option String) :
    List DetectedItem :=
  let detected := (quantityPatternWords.map fun words =>
    (scanQuantities words text.data.length text.data).filterMap fun p =>
      if 0 < p.1 && p.1 ≤ 20 then
        some { foodName := capitalizeWord p.2
               visibleCount := some (p.1 : ℤ)
               perUnitWeight := some (estimateWeight p.2)
               userProvided := userInput.isSome }
      else none).flatten
  if detected.isEmpty then
    match bestGuessFoodTypes.find? (fun ft => jsIncludes (strToLower text) ft) with
    | some ft => [{ foodName := capitalizeWord ft
                    visibleCount := some 1
                    perUnitWeight := some (estimateWeight ft)
                    userProvided := false }]
    | none => []
  else detected

/-- Model of `extractQuantitiesFromText`: synthesize items from the raw text, then hand
`{ detectedItems, confidence: 0.8 }` to `formatQuantityResponse` (an empty
match list still arrives as a present — hence truthy — array). -/
def extractQuantitiesFromText (env : GenEnv) (text : String)
    (userInput : Option String) : Except String Report :=
  formatQuantityResponse env
    ⟨some (extractDetectedItemsFromText text userInput), some 0.8⟩ userInput

/-- Shared shape of the two branches of `formatSimpleResponse` (they differ
only in the `FoodData` they read from). -/
def simpleReportFrom (fd : FoodData) (method : String) (confidence : ℚ) : Report :=
  { foodName := fd.displayName
    isComboMeal := false
    itemCount := 1
    totalFoodPieces := 1
    individualItems :=
      [{ name := fd.displayName
         visibleCount := 1
         perUnitWeight := fd.weight
         totalWeight := fd.weight
         perUnitNutrition := .vec fd.nutrition
         totalNutrition := .vec fd.nutrition
         userProvided := false
         category := none
         healthScore := none
         ingredients := []
         tips := none
         generatedByAI := false
         portion := ⟨"Medium", "1 piece", fd.weight⟩ }]
    confidence := confidence
    category := fd.category
    servingSize := "1 piece (" ++ fd.weight ++ ")"
    nutrition := fd.nutrition
    healthScore := fd.healthScore
    dietaryInfo := ⟨true, false, false, false, false⟩
    ingredients := fd.ingredients
    tips := fd.tips
    method := method
    userAssisted := false
    hasAIGeneratedNutrition := false
    isEstimate := false
    usedModel := none
    imageUri := none
    userInput := none }

/-- Model of `formatSimpleResponse`: single-label path used by the Hugging Face and
Google Vision providers. -/
def formatSimpleResponse (label : String) (method : String) (confidence : ℚ) :
    Report :=
  match getPerUnitNutrition label with
  | .found d => simpleReportFrom d method confidence
  | .stub _ _ => simpleReportFrom (generateSmartFallback label) method confidence

/-- Model of `multiplyNutrition` applied to a nutrition slot.  The placeholder branch is
never exercised by `getFallbackData`: `'paratha'` resolves to a catalog record
(JavaScript would build an object of `NaN`s there). -/
def mulNutVal : NutVal → ℤ → NutVal
  | .vec v, c => .vec (multiplyNutrition v c)
  | .aiGenerate, _ => .aiGenerate

/-- Model of `getFallbackData`: the deterministic local-fallback report (2 parathas and
1 bonda, both looked up in the local database). -/
def getFallbackData (imageUri : String) (userInput : Option String) : Report :=
  let parathaData := getPerUnitNutrition "paratha"
  let bondaData := getPerUnitNutrition "bonda"
  let items : List ResolvedItem :=
    [{ name := parathaData.displayName
       visibleCount := 2
       perUnitWeight := parathaData.weight
       totalWeight := weightTimes parathaData.weight 2
       perUnitNutrition := parathaData.nutritionVal
       totalNutrition := mulNutVal parathaData.nutritionVal 2
       userProvided := false
       category := none
       healthScore := none
       ingredients := []
       tips := none
       generatedByAI := false
       portion := ⟨"Medium", "2 pieces", weightTimes parathaData.weight 2⟩ },
     { name := bondaData.displayName
       visibleCount := 1
       perUnitWeight := bondaData.weight
       totalWeight := bondaData.weight
       perUnitNutrition := bondaData.nutritionVal
       totalNutrition := bondaData.nutritionVal
       userProvided := false
       category := none
       healthScore := none
       ingredients := []
       tips := none
       generatedByAI := false
       portion := ⟨"Small", "1 piece", bondaData.weight⟩ }]
  { foodName := "Indian Combo: 2 Plain Parathas + 1 Aloo Bonda"
    isComboMeal := true
    itemCount := 2
    totalFoodPieces := 3
    individualItems := items
    confidence := 0.6
    category := "Indian Combo"
    servingSize := "3 pieces total (185g)"
    nutrition := calculateGrandTotal items
    healthScore := 6.5
    dietaryInfo := ⟨true, false, false, false, true⟩
    ingredients := ["wheat flour", "potato", "spices", "oil"]
    tips := "Estimated quantities - AI analysis failed"
    method := "Local Fallback"
    userAssisted := false
    hasAIGeneratedNutrition := false
    isEstimate := true
    usedModel := none
    imageUri := some imageUri
    userInput := userInput }

/-- Environment of one `recognizeFood` request: outcome of the two
image-encoding paths and of each provider attempt.  A provider outcome is
`.error` when the call threw, `.ok none` when it returned a falsy result, and
`.ok (some r)` when it produced a report. -/
structure RecEnv where
  fileSystem : Except String String
  manipulator : Except String (Option String)
  gemini : Except String (Option Report)
  huggingFace : Except String (Option Report)
  googleVision : Except String (Option Report)

/-- Model of `imageToBase64`: FileSystem read, then the ImageManipulator retry, throwing
only when both paths fail. -/
def imageToBase64 (env : RecEnv) : Except String String :=
  match env.fileSystem with
  | .ok b => .ok b
  | .error _ =>
    match env.manipulator with
    | .error e => .error e
    | .ok (some b) => .ok b
    | .ok none => .error "❌ Failed to convert image to Base64"

/-- What the provider loop sees of one attempt: a report, or nothing (thrown
error and falsy result are both swallowed by the loop). -/
def providerYields : Except String (Option Report) → Option Report
  | .ok (some r) => some r
  | .ok none => none
  | .error _ => none

/-- The `for (const { name, func } of methods)` loop of `recognizeFood`. -/
def tryMethods : List (String × Except String (Option Report)) → Option (String × Report)
  | [] => none
  | (name, outcome) :: rest =>
    match providerYields outcome with
    | some r => some (name, r)
    | none => tryMethods rest

/-- Model of `recognizeFood`: encode the image (propagating encoding failure), try the
three providers in order, and fall back to `getFallbackData` when none yields
a report. -/
def recognizeFood (env : RecEnv) (imageUri : String) (userInput : Option String) :
    Except String Report :=
  match imageToBase64 env with
  | .error e => .error e
  | .ok _ =>
    match tryMethods
        [("Gemini Vision", env.gemini),
         ("Hugging Face Vision", env.huggingFace),
         ("Google Vision", env.googleVision)] with
    | some (name, r) =>
      .ok { r with usedModel := some name, imageUri := some imageUri,
                   userInput := userInput }
    | none =>
      .ok { getFallbackData imageUri userInput with usedModel := some "Local Fallback" }

/-- The `nutriments` object consumed from the Open Food Facts payload
(`undefined` fields are `none`; every read goes through `|| 0`). -/
structure Nutriments where
  energyKcal100g : Option ℚ
  proteins100g : Option ℚ
  carbohydrates100g : Option ℚ
  fat100g : Option ℚ
  fiber100g : Option ℚ
  sugars100g : Option ℚ
  sodium100g : Option ℚ
  iron100g : Option ℚ
  calcium100g : Option ℚ
  vitaminC100g : Option ℚ
deriving DecidableEq, Repr

def emptyNutriments : Nutriments :=
  ⟨none, none, none, none, none, none, none, none, none, none⟩

/-- The product fields consumed by `recognizeBarcode`. -/
structure OffProduct where
  productName : Option String
  brands : Option String
  nutriments : Option Nutriments
  labels : Option String
  ingredientsText : Option String
deriving DecidableEq, Repr

structure BarcodeDietaryInfo where
  isVegetarian : Bool
  isVegan : Bool
  isGlutenFree : Bool
  isLowCarb : Bool
  isHighProtein : Bool
deriving DecidableEq, Repr

/-- The packaged-food report shape produced by `recognizeBarcode`. -/
structure BarcodeReport where
  foodName : String
  isComboMeal : Bool
  itemCount : ℕ
  totalFoodPieces : ℕ
  confidence : ℚ
  category : String
  servingSize : String
  brand : String
  nutrition : NutritionVector
  ingredients : List String
  healthScore : ℚ
  dietaryInfo : BarcodeDietaryInfo
  tips : String
  method : String
  barcode : String
  hasAIGeneratedNutrition : Bool
deriving DecidableEq, Repr

/-- Model of `calculatePackagedHealthScore`: 5-point-base packaged-food heuristic. -/
def calculatePackagedHealthScore (n : Nutriments) : ℚ :=
  let score : ℚ := 5
  let score := if n.proteins100g.getD 0 > 10 then score + 1 else score
  let score := if n.fiber100g.getD 0 > 5 then score + 1 else score
  let score := if n.sodium100g.getD 0 < 300 then score + 1 else score
  let score := if n.sugars100g.getD 0 > 15 then score - 1 else score
  let score := if n.fat100g.getD 0 > 20 then score - 1 else score
  let score := if n.sodium100g.getD 0 > 800 then score - 2 else score
  max 1 (min 10 score)

/-- Model of `recognizeBarcode`: look the barcode up (the `lookup` argument records the
fetch outcome: thrown error, product missing, or product found).  Any failure
— including `'Product not found'` — is caught and rethrown as the barcode-named
message, so no report is returned in those cases. -/
def recognizeBarcode (lookup : Except String (Option OffProduct)) (barcode : String) :
    Except String BarcodeReport :=
  match lookup with
  | .error _ => .error ("Could not find product information for barcode: " ++ barcode)
  | .ok none => .error ("Could not find product information for barcode: " ++ barcode)
  | .ok (some product) =>
    let n := product.nutriments.getD emptyNutriments
    .ok
      { foodName := product.productName.getD "Unknown Product"
        isComboMeal := false
        itemCount := 1
        totalFoodPieces := 1
        confidence := 0.95
        category := "Packaged Food"
        servingSize := "100g"
        brand := product.brands.getD "Unknown Brand"
        nutrition :=
          { calories := jsRound (n.energyKcal100g.getD 0)
            protein := round1 (n.proteins100g.getD 0)
            carbs := round1 (n.carbohydrates100g.getD 0)
            fat := round1 (n.fat100g.getD 0)
            fiber := round1 (n.fiber100g.getD 0)
            sugar := round1 (n.sugars100g.getD 0)
            sodium := jsRound (n.sodium100g.getD 0)
            iron := round1 (n.iron100g.getD 0)
            calcium := jsRound (n.calcium100g.getD 0)
            vitaminC := round1 (n.vitaminC100g.getD 0) }
        ingredients :=
          match product.ingredientsText with
          | some t => ((t.splitOn ",").map String.trim).take 8
          | none => []
        healthScore := calculatePackagedHealthScore n
        dietaryInfo :=
          { isVegetarian := (product.labels.map (fun s => jsIncludes s "Vegetarian")).getD false
            isVegan := (product.labels.map (fun s => jsIncludes s "Vegan")).getD false
            isGlutenFree := (product.labels.map (fun s => jsIncludes s "Gluten-free")).getD false
            isLowCarb := decide (n.carbohydrates100g.getD 0 < 10)
            isHighProtein := decide (n.proteins100g.getD 0 > 15) }
        tips := "Check product label for complete nutritional information"
        method := "Barcode Recognition"
        barcode := barcode
        hasAIGeneratedNutrition := false }

/-- Resolver written from the SPEC's matching-priority wording (§4.4):
1. exact — lowercased name equals a key or a display name;
2. compound — name with spaces as underscores equals a key, or a key with
   underscores as spaces equals the name;
3. substring — a key longer than 3 characters occurs inside the name;
first hit wins within each pass.  For comparison with `getPerUnitNutrition`. -/
def specResolve (foodName : String) : Option FoodData :=
  let name := strToLower foodName
  let underscored := String.mk (name.data.map fun c => if c == ' ' then '_' else c)
  let despaced := fun (k : String) =>
    String.mk (k.data.map fun c => if c == '_' then ' ' else c)
  match perUnitDB.find? (fun e => e.key == name || strToLower e.data.displayName == name) with
  | some e => some e.data
  | none =>
    match perUnitDB.find? (fun e => e.key == underscored || despaced e.key == name) with
    | some e => some e.data
    | none =>
      (perUnitDB.find? (fun e => decide (e.key.length > 3) && jsIncludes name e.key)).map
        (·.data)

/-- Health-score formula written from the SPEC's wording (§4.6): start at 6,
apply the eight threshold bonuses/penalties, clamp to [1, 10] — with no
intermediate rounding step. -/
def specHealthScore (n : NutritionVector) : ℚ :=
  max 1 (min 10 (rawHealthScore n))

/-- Trivial generation environment: every AI-nutrition sub-call fails, so the
pipeline resolves unknown foods with the smart fallback. -/
def noGen : GenEnv := ⟨fun _ _ _ => none⟩

/-- Request environment in which both image-encoding paths fail and every
provider call throws. -/
def deadEnv : RecEnv :=
  ⟨.error "read failed", .ok none, .error "HTTP 500", .error "HTTP 500", .error "HTTP 500"⟩

/-- Request environment in which image encoding succeeds but every provider
call throws (e.g. all providers overloaded). -/
def overloadedEnv : RecEnv :=
  ⟨.ok "b64payload", .ok none, .error "overloaded", .error "overloaded", .error "overloaded"⟩

/-- C1: in the local-fallback report the grand total is NOT the field-wise sum
over all listed items: `'bonda'` is not a key of the local database, so the
second item carries the `'AI_GENERATE'` placeholder instead of a nutrition
vector and contributes nothing — the grand total (360 kcal) equals the two
parathas' total alone, while the report still advertises the bonda item. -/
theorem fallback_bonda_missing (uri : String) (ui : Option String) :
    getPerUnitNutrition "bonda" = .stub "bonda" "100g" ∧
    (getFallbackData uri ui).individualItems.map (fun i => i.totalNutrition) =
      [.vec ⟨360, 8, 56, 13, 6, 4, 360, 3.6, 50, 0⟩, .aiGenerate] ∧
    (getFallbackData uri ui).nutrition = ⟨360, 8, 56, 13, 6, 4, 360, 3.6, 50, 0⟩ ∧
    (getFallbackData uri ui).foodName = "Indian Combo: 2 Plain Parathas + 1 Aloo Bonda" := by
  refine ⟨by decide, ?_, ?_, rfl⟩
  · show (getFallbackData "" none).individualItems.map (fun i => i.totalNutrition) = _
    decide
  · show (getFallbackData "" none).nutrition = _
    decide

/-- C2 counterexample: when both image-encoding paths fail, `recognizeFood`
throws even though every provider attempt fails as well — so the claim that it
never signals failure outward is false as stated. -/
theorem recognizeFood_encoding_failure_escapes :
    providerYields deadEnv.gemini = none ∧
    providerYields deadEnv.huggingFace = none ∧
    providerYields deadEnv.googleVision = none ∧
    recognizeFood deadEnv "photo.jpg" none =
      .error "❌ Failed to convert image to Base64" :=
  ⟨rfl, rfl, rfl, rfl⟩

/-- C2 (amended): whenever image encoding succeeds and no provider yields a
report, `recognizeFood` returns the complete local-fallback report, with
`method = "Local Fallback"` and `isEstimate = true`. -/
theorem recognizeFood_fallback_on_provider_failure
    (env : RecEnv) (imageUri : String) (userInput : Option String)
    (henc : ∃ b, imageToBase64 env = .ok b)
    (hg : providerYields env.gemini = none)
    (hh : providerYields env.huggingFace = none)
    (hv : providerYields env.googleVision = none) :
    recognizeFood env imageUri userInput =
      .ok { getFallbackData imageUri userInput with usedModel := some "Local Fallback" } ∧
    ∃ r, recognizeFood env imageUri userInput = .ok r ∧
      r.method = "Local Fallback" ∧ r.isEstimate = true ∧
      r.usedModel = some "Local Fallback" := by
  obtain ⟨b, hb⟩ := henc
  have hrec : recognizeFood env imageUri userInput =
      .ok { getFallbackData imageUri userInput with usedModel := some "Local Fallback" } := by
    simp only [recognizeFood, tryMethods, hb, hg, hh, hv]
  exact ⟨hrec, _, hrec, rfl, rfl, rfl⟩

/-- C2 witness: a concrete request with all three providers down produces the
fallback report. -/
theorem recognizeFood_fallback_witness :
    recognizeFood overloadedEnv "photo.jpg" none =
      .ok { getFallbackData "photo.jpg" none with usedModel := some "Local Fallback" } ∧
    ∃ r, recognizeFood overloadedEnv "photo.jpg" none = .ok r ∧
      r.method = "Local Fallback" ∧ r.isEstimate = true ∧
      r.usedModel = some "Local Fallback" :=
  recognizeFood_fallback_on_provider_failure overloadedEnv "photo.jpg" none
    ⟨"b64payload", rfl⟩ rfl rfl rfl

/-- C3 counterexample: the resolver does not implement the spec's tiered
matching priority.  On `"Creamy Mix Veg"` the spec resolver (exact, compound,
then substring of keys longer than 3) finds nothing, yet the code returns the
`mix_veg` entry, because its single pass also matches a display name occurring
as a substring of the food name. -/
theorem resolver_deviates_from_spec_priority :
    specResolve "Creamy Mix Veg" = none ∧
    ∃ e ∈ perUnitDB, e.key = "mix_veg" ∧
      getPerUnitNutrition "Creamy Mix Veg" = .found e.data := by
  refine ⟨by decide, ⟨"mix_veg", ⟨"Mix Veg", "150g",
    ⟨140, 5.2, 18, 6.8, 5.5, 8, 320, 2.4, 85, 25⟩, "North Indian", 8,
    ["mixed vegetables", "onion", "tomato", "spices", "oil"],
    "Rich in vitamins and minerals from fresh vegetables"⟩⟩, ?_, rfl, by decide⟩
  unfold perUnitDB
  exact List.mem_cons_of_mem _ (List.mem_cons_self _ _)

/-- First-hit characterization of `List.find?`: if position `i` satisfies the
test and no earlier position does, the scan returns element `i`. -/
theorem find?_first_hit {α : Type _} (p : α → Bool) :
    ∀ (l : List α) (i : ℕ) (hi : i < l.length),
      p l[i] = true →
      (∀ (j : ℕ) (hj : j < l.length), j < i → p l[j] = false) →
      l.find? p = some l[i] := by
  intro l
  induction l with
  | nil => intro i hi _ _; exact absurd hi (by simp)
  | cons a t ih =>
    intro i hi hp hprev
    cases i with
    | zero => exact List.find?_cons_of_pos _ hp
    | succ i =>
      have h0 : p a = false := hprev 0 (by simp) (Nat.succ_pos _)
      rw [List.find?_cons_of_neg _ (by simp [h0])]
      have hi' : i < t.length := by simpa using hi
      have hres := ih i hi' (by simpa using hp)
        (fun j hj hji => by
          have := hprev (j + 1) (by simpa using hj) (Nat.succ_lt_succ hji)
          simpa using this)
      simpa using hres

/-- C3 (amended): the resolver performs one ordered scan of the database and
returns the FIRST entry whose key or lowercased display name is a substring of
the lowercased food name: if entry `i` matches and no earlier entry does, the
resolver returns entry `i`; when no entry matches it returns the generation
stub with the original name and estimated weight; and every found result comes
from a matching entry.  Resolving `"Dal Makhani"` does return the
`dal_makhani` entry (via its display name), and on the multi-match name
`"Dal Makhani Paratha"` — which also matches the `dal_makhani` entry — the
earlier `paratha` entry wins, showing database order decides. -/
theorem resolver_first_substring_hit :
    (∃ e ∈ perUnitDB, e.key = "dal_makhani" ∧
        getPerUnitNutrition "Dal Makhani" = .found e.data) ∧
    (∀ (foodName : String) (i : ℕ) (hi : i < perUnitDB.length),
        codeMatches (strToLower foodName) perUnitDB[i] = true →
        (∀ (j : ℕ) (hj : j < perUnitDB.length), j < i →
            codeMatches (strToLower foodName) perUnitDB[j] = false) →
        getPerUnitNutrition foodName = .found perUnitDB[i].data) ∧
    (∀ foodName : String,
        (∀ e ∈ perUnitDB, codeMatches (strToLower foodName) e = false) →
        getPerUnitNutrition foodName = .stub foodName (estimateWeight foodName)) ∧
    (∀ (foodName : String) (d : FoodData),
        getPerUnitNutrition foodName = .found d →
        ∃ e ∈ perUnitDB, e.data = d ∧ codeMatches (strToLower foodName) e = true) ∧
    (codeMatches (strToLower "Dal Makhani Paratha")
        ⟨"dal_makhani", ⟨"Dal Makhani", "150g",
          ⟨210, 12.5, 24, 8.8, 9.2, 4, 380, 4.8, 85, 3⟩, "Dal", 8,
          ["black dal", "kidney beans", "butter", "cream", "tomato"],
          "Rich source of plant protein and iron"⟩⟩ = true ∧
      getPerUnitNutrition "Dal Makhani Paratha" = .found ⟨"Plain Paratha", "70g",
        ⟨180, 4.0, 28, 6.5, 3.0, 2, 180, 1.8, 25, 0⟩, "Indian Bread", 7,
        ["wheat flour", "oil", "salt"], "Good source of carbohydrates and energy"⟩) := by
  refine ⟨⟨⟨"dal_makhani", ⟨"Dal Makhani", "150g",
      ⟨210, 12.5, 24, 8.8, 9.2, 4, 380, 4.8, 85, 3⟩, "Dal", 8,
      ["black dal", "kidney beans", "butter", "cream", "tomato"],
      "Rich source of plant protein and iron"⟩⟩, by decide, rfl, by decide⟩,
    ?_, ?_, ?_, by decide, by decide⟩
  · intro foodName i hi hp hprev
    have hf := find?_first_hit (codeMatches (strToLower foodName)) perUnitDB i hi hp hprev
    unfold getPerUnitNutrition
    simp only [hf]
  · intro foodName h
    have hnone : perUnitDB.find? (codeMatches (strToLower foodName)) = none :=
      List.find?_eq_none.mpr (fun e he => by simp [h e he])
    unfold getPerUnitNutrition
    simp only [hnone]
  · intro foodName d h
    unfold getPerUnitNutrition at h
    cases hf : perUnitDB.find? (codeMatches (strToLower foodName)) with
    | none => exact absurd h (by simp [hf])
    | some e =>
      simp only [hf, LookupResult.found.injEq] at h
      subst h
      exact ⟨e, List.mem_of_find?_eq_some hf, rfl, List.find?_some hf⟩

/-- C3 witness: a name matching no entry resolves to the generation stub, and
the first-hit clause applied at `"Dal Makhani"` (entry 21 matches via its
display name, entries 0..20 do not) yields the `dal_makhani` record. -/
theorem resolver_first_substring_hit_witness :
    getPerUnitNutrition "zzz" = .stub "zzz" (estimateWeight "zzz") ∧
    getPerUnitNutrition "Dal Makhani" = LookupResult.found ⟨"Dal Makhani", "150g",
      ⟨210, 12.5, 24, 8.8, 9.2, 4, 380, 4.8, 85, 3⟩, "Dal", 8,
      ["black dal", "kidney beans", "butter", "cream", "tomato"],
      "Rich source of plant protein and iron"⟩ :=
  ⟨resolver_first_substring_hit.2.2.1 "zzz" (by decide),
   resolver_first_substring_hit.2.1 "Dal Makhani" 21 (by decide) (by decide)
     (fun j hj hji => by revert hji; revert hj; revert j; decide)⟩

/-- C4: every item of a report produced by the quantity pipeline carries a
per-unit nutrition vector, and its total nutrition is that vector multiplied
field-wise by its visible count, with calories/sodium/calcium rounded to
integers and every other field rounded to one decimal place. -/
theorem item_totals_equal_per_unit_times_count
    (env : GenEnv) (data : QuantityData) (userInput : Option String) (report : Report)
    (h : formatQuantityResponse env data userInput = .ok report) :
    ∀ item ∈ report.individualItems, ∃ pv : NutritionVector,
      item.perUnitNutrition = .vec pv ∧
      item.totalNutrition = .vec
        { calories := jsRound (pv.calories * item.visibleCount)
          protein := round1 (pv.protein * item.visibleCount)
          carbs := round1 (pv.carbs * item.visibleCount)
          fat := round1 (pv.fat * item.visibleCount)
          fiber := round1 (pv.fiber * item.visibleCount)
          sugar := round1 (pv.sugar * item.visibleCount)
          sodium := jsRound (pv.sodium * item.visibleCount)
          iron := round1 (pv.iron * item.visibleCount)
          calcium := jsRound (pv.calcium * item.visibleCount)
          vitaminC := round1 (pv.vitaminC * item.visibleCount) } := by
  intro item hmem
  rcases data with ⟨di, conf⟩
  cases di with
  | none => simp [formatQuantityResponse] at h
  | some l =>
    simp only [formatQuantityResponse, Except.ok.injEq] at h
    subst h
    obtain ⟨d, hd, rfl⟩ := List.mem_map.mp hmem
    exact ⟨_, rfl, rfl⟩

/-- C4 witness: the per-item rounding law holds on a concrete report
(2 parathas resolved from the local database). -/
theorem item_totals_witness :
    ∃ report, formatQuantityResponse noGen
      ⟨some [⟨"Paratha", some 2, none, false⟩], some 0.9⟩ none = Except.ok report ∧
      ∀ item ∈ report.individualItems, ∃ pv : NutritionVector,
        item.perUnitNutrition = .vec pv ∧
        item.totalNutrition = .vec
          { calories := jsRound (pv.calories * item.visibleCount)
            protein := round1 (pv.protein * item.visibleCount)
            carbs := round1 (pv.carbs * item.visibleCount)
            fat := round1 (pv.fat * item.visibleCount)
            fiber := round1 (pv.fiber * item.visibleCount)
            sugar := round1 (pv.sugar * item.visibleCount)
            sodium := jsRound (pv.sodium * item.visibleCount)
            iron := round1 (pv.iron * item.visibleCount)
            calcium := jsRound (pv.calcium * item.visibleCount)
            vitaminC := round1 (pv.vitaminC * item.visibleCount) } :=
  ⟨_, rfl, item_totals_equal_per_unit_times_count noGen
    ⟨some [⟨"Paratha", some 2, none, false⟩], some 0.9⟩ none _ rfl⟩

theorem halfZ_add {a b : ℚ} (ha : ∃ k : ℤ, a = k / 2) (hb : ∃ k : ℤ, b = k / 2) :
    ∃ k : ℤ, a + b = k / 2 := by
  obtain ⟨j, rfl⟩ := ha
  obtain ⟨l, rfl⟩ := hb
  exact ⟨j + l, by push_cast; ring⟩

theorem halfZ_sub {a b : ℚ} (ha : ∃ k : ℤ, a = k / 2) (hb : ∃ k : ℤ, b = k / 2) :
    ∃ k : ℤ, a - b = k / 2 := by
  obtain ⟨j, rfl⟩ := ha
  obtain ⟨l, rfl⟩ := hb
  exact ⟨j - l, by push_cast; ring⟩

theorem halfZ_ind (c : Prop) [Decidable c] {x : ℚ} (hx : ∃ k : ℤ, x = k / 2) :
    ∃ k : ℤ, (if c then x else 0) = k / 2 := by
  split
  · exact hx
  · exact ⟨0, by norm_num⟩

theorem rawHealthScore_half (n : NutritionVector) : ∃ k : ℤ, rawHealthScore n = k / 2 := by
  unfold rawHealthScore
  exact halfZ_sub (halfZ_sub (halfZ_sub (halfZ_sub
    (halfZ_add (halfZ_add (halfZ_add (halfZ_add ⟨12, by norm_num⟩
      (halfZ_ind _ ⟨2, by norm_num⟩)) (halfZ_ind _ ⟨2, by norm_num⟩))
      (halfZ_ind _ ⟨1, by norm_num⟩)) (halfZ_ind _ ⟨1, by norm_num⟩))
    (halfZ_ind _ ⟨2, by norm_num⟩)) (halfZ_ind _ ⟨1, by norm_num⟩))
    (halfZ_ind _ ⟨1, by norm_num⟩)) (halfZ_ind _ ⟨1, by norm_num⟩)

theorem jsRound_intCast (z : ℤ) : jsRound (z : ℚ) = z := by
  unfold jsRound
  have h0 : ⌊(1/2 : ℚ)⌋ = 0 := by decide
  rw [Int.floor_int_add, h0, add_zero]

/-- C5: the meal health score equals the spec's formula (start at 6, the eight
threshold bonuses/penalties, clamp to [1, 10]; the code's intermediate
`Math.round(score * 2) / 2` is the identity on the half-integer raw score),
and the result is always within [1, 10] and a multiple of 0.5. -/
theorem healthScore_spec_bounds_granularity (n : NutritionVector) :
    calculateAccurateHealthScore n = specHealthScore n ∧
    1 ≤ calculateAccurateHealthScore n ∧ calculateAccurateHealthScore n ≤ 10 ∧
    ∃ k : ℤ, calculateAccurateHealthScore n = k / 2 := by
  obtain ⟨k, hk⟩ := rawHealthScore_half n
  have hround : jsRound (rawHealthScore n * 2) / 2 = rawHealthScore n := by
    rw [hk, div_mul_cancel₀ _ (by norm_num : (2:ℚ) ≠ 0), jsRound_intCast]
  have hcalc : calculateAccurateHealthScore n = max 1 (min 10 (rawHealthScore n)) := by
    unfold calculateAccurateHealthScore
    rw [hround]
  refine ⟨by rw [hcalc]; rfl, by rw [hcalc]; exact le_max_left _ _,
    by rw [hcalc]; exact max_le (by norm_num) (min_le_left _ _), ?_⟩
  rw [hcalc, hk]
  refine ⟨max 2 (min 20 k), ?_⟩
  push_cast
  rw [← max_div_div_right (by norm_num : (0:ℚ) ≤ 2),
      ← min_div_div_right (by norm_num : (0:ℚ) ≤ 2)]
  norm_num

/-- C6 counterexample: on text with no recognizable food word the extractor
does not throw — the empty detected-items array passes the
`!data.detectedItems` guard, and a report with zero items is returned. -/
theorem extractor_no_food_word_still_ok :
    extractDetectedItemsFromText "hello world" none = [] ∧
    ∃ r, extractQuantitiesFromText noGen "hello world" none = .ok r ∧
      r.individualItems = [] ∧ r.itemCount = 0 :=
  ⟨by decide, _, rfl, rfl, rfl⟩

/-- C6 (amended): the extractor synthesizes one item per `<integer> <food-word>`
match with count in 1..20; when no match survives, it emits a single count-1
item for the first entry of the fixed list pizza/burger/paratha/dosa/noodles
contained in the text (list order, not text order); and when nothing matches at
all it still returns a report with an empty item list rather than throwing. -/
theorem extractor_amended_behavior :
    (∀ (env : GenEnv) (text : String) (userInput : Option String),
        extractDetectedItemsFromText text userInput = [] →
        ∃ r, extractQuantitiesFromText env text userInput = .ok r ∧
          r.individualItems = [] ∧ r.itemCount = 0) ∧
    extractDetectedItemsFromText "2 pizza and 3 roti" none =
      [⟨"Pizza", some 2, some "150g", false⟩, ⟨"Roti", some 3, some "100g", false⟩] ∧
    extractDetectedItemsFromText "25 pizza" none = [⟨"Pizza", some 1, some "150g", false⟩] ∧
    extractDetectedItemsFromText "dosa and pizza" none =
      [⟨"Pizza", some 1, some "150g", false⟩] := by
  refine ⟨?_, by decide, by decide, by decide⟩
  intro env text ui h
  unfold extractQuantitiesFromText
  rw [h]
  exact ⟨_, rfl, rfl, rfl⟩

/-- C6 witness: a concrete no-food-word text yields the empty-item report. -/
theorem extractor_amended_witness :
    ∃ r, extractQuantitiesFromText noGen "xyz qwerty" none = .ok r ∧
      r.individualItems = [] ∧ r.itemCount = 0 :=
  extractor_amended_behavior.1 noGen "xyz qwerty" none (by decide)

/-- C7: the dietary flags are exactly as claimed — vegetarian iff no item has a
meat/egg-term ingredient, vegan iff vegetarian and no dairy-term ingredient,
gluten-free iff no wheat/flour/bread-term ingredient, high-protein iff the
summed item protein exceeds 20 g, balanced iff the report has at least 2
items. -/
theorem dietary_flags_characterization (items : List ResolvedItem) :
    ((getDietaryInfo items).isVegetarian = true ↔
      ∀ item ∈ items, ∀ ing ∈ item.ingredients, strToLower ing ∉ meatEggTerms) ∧
    ((getDietaryInfo items).isVegan = true ↔
      ((∀ item ∈ items, ∀ ing ∈ item.ingredients, strToLower ing ∉ meatEggTerms) ∧
       ∀ item ∈ items, ∀ ing ∈ item.ingredients, strToLower ing ∉ dairyTerms)) ∧
    ((getDietaryInfo items).isGlutenFree = true ↔
      ∀ item ∈ items, ∀ ing ∈ item.ingredients, strToLower ing ∉ glutenTerms) ∧
    ((getDietaryInfo items).isHighProtein = true ↔ 20 < totalProteinOf items) ∧
    ((getDietaryInfo items).isBalanced = true ↔ 2 ≤ items.length) := by
  have hterms : ∀ terms : List String, (hasIngredientIn terms items = false ↔
      ∀ item ∈ items, ∀ ing ∈ item.ingredients, strToLower ing ∉ terms) := by
    intro terms
    simp [hasIngredientIn, List.contains_eq_any_beq]
  refine ⟨?_, ?_, ?_, ?_, ?_⟩
  · simpa [getDietaryInfo, Bool.not_eq_true'] using hterms meatEggTerms
  · have := and_congr (hterms meatEggTerms) (hterms dairyTerms)
    simpa [getDietaryInfo, Bool.and_eq_true, Bool.not_eq_true'] using this
  · simpa [getDietaryInfo, Bool.not_eq_true'] using hterms glutenTerms
  · simp [getDietaryInfo]
  · simp [getDietaryInfo]

/-- C8: when the product lookup finds nothing, `recognizeBarcode` raises the
distinct not-found failure naming the barcode and returns no report. -/
theorem barcode_not_found_raises
    (lookup : Except String (Option OffProduct)) (barcode : String)
    (h : lookup = .ok none) :
    recognizeBarcode lookup barcode =
      .error ("Could not find product information for barcode: " ++ barcode) := by
  subst h; rfl

/-- C8 witness: a concrete unknown barcode produces the named failure. -/
theorem barcode_not_found_witness :
    recognizeBarcode (.ok none) "8901058000290" =
      .error ("Could not find product information for barcode: " ++ "8901058000290") :=
  barcode_not_found_raises _ _ rfl

/-- C9 counterexample: resolving `"Paratha"` with visible count 3 yields total
calories 540, but the portion size is `"Medium"`, not `"Large"` — the `count >
3` boundary places count 3 below the Large threshold. -/
theorem paratha_three_is_medium_not_large :
    ∃ r, formatQuantityResponse noGen
        ⟨some [⟨"Paratha", some 3, none, false⟩], some 0.9⟩ none = .ok r ∧
      r.individualItems.map (fun i => i.portion.size) = ["Medium"] ∧
      r.individualItems.map (fun i => i.totalNutrition) =
        [.vec ⟨540, 12, 84, 19.5, 9, 6, 540, 5.4, 75, 0⟩] ∧
      r.nutrition.calories = 540 ∧ "Medium" ≠ "Large" :=
  ⟨_, rfl, by decide, by decide, by decide, by decide⟩

/-- C9 (amended): `"Paratha"` ×3 yields total calories 540 and portion size
`"Medium"`; the boundary sits at count > 3, so ×4 yields 720 calories and
`"Large"`. -/
theorem paratha_portion_boundary :
    (∃ r, formatQuantityResponse noGen
        ⟨some [⟨"Paratha", some 3, none, false⟩], some 0.9⟩ none = .ok r ∧
      r.nutrition.calories = 540 ∧
      r.individualItems.map (fun i => i.portion.size) = ["Medium"]) ∧
    (∃ r, formatQuantityResponse noGen
        ⟨some [⟨"Paratha", some 4, none, false⟩], some 0.9⟩ none = .ok r ∧
      r.nutrition.calories = 720 ∧
      r.individualItems.map (fun i => i.portion.size) = ["Large"]) :=
  ⟨⟨_, rfl, by decide, by decide⟩, ⟨_, rfl, by decide, by decide⟩⟩

/-- C10: on the single-label path the dietary flags are the fixed constant
{vegetarian, not vegan, not gluten-free, not high-protein, not balanced},
independent of the detected label, method and confidence — any two labels
yield identical flags. -/
theorem simple_response_dietary_constant
    (label₁ label₂ method₁ method₂ : String) (c₁ c₂ : ℚ) :
    (formatSimpleResponse label₁ method₁ c₁).dietaryInfo =
      ⟨true, false, false, false, false⟩ ∧
    (formatSimpleResponse label₁ method₁ c₁).dietaryInfo =
      (formatSimpleResponse label₂ method₂ c₂).dietaryInfo := by
  have key : ∀ (l m : String) (c : ℚ),
      (formatSimpleResponse l m c).dietaryInfo = ⟨true, false, false, false, false⟩ := by
    intro l m c
    unfold formatSimpleResponse
    cases getPerUnitNutrition l <;> rfl
  exact ⟨key _ _ _, (key _ _ _).trans (key _ _ _).symm⟩
